import Mathlib

/-!
Shallow embedding of `pyopentxs.py`, a thin Python convenience layer over the
opaque SWIG-generated `opentxs` capability library.  The capability is modelled
as a structure of total functions (`OpentxsAPI`); Python exceptions are
modelled by an explicit error type (`Err`) and `Except`; file streams and the
wallet directory tree are explicit state records.
-/

namespace Pyopentxs

/-- Python-level failures that the shim can raise or propagate:
`ReturnValueError` is the class defined in the file itself; the others model
built-in Python exceptions (failed `assert`, list index out of range,
missing file on `open`, I/O on a closed stream, BeautifulSoup lookup
failures, `shutil` failures). -/
inductive Err where
  | ReturnValueError (return_value : String)
  | AssertionError
  | IndexError
  | FileNotFoundError (path : String)
  | ValueError (msg : String)
  | AttributeError
  | KeyError
  | FileExistsError (path : String)
  deriving Repr, DecidableEq

/-- The opaque capability interface consumed by the shim: one field per
`opentxs.OTAPI_Wrap_*` / `_otme.*` operation that the modelled functions call.
Counts are fixed naturals and lookups are total functions, mirroring the
"capability state" at the time of a call. -/
structure OpentxsAPI where
  create_nym : Nat → String → String → String
  create_asset_acct : String → String → String → String
  CreateServerContract : String → String → String
  GetNymCount : Nat
  GetNym_ID : Nat → String
  GetNym_Name : String → String
  GetAccountCount : Nat
  GetAccountWallet_ID : Nat → String
  GetServerCount : Nat
  GetServer_ID : Nat → String
  GetServer_Name : String → String
  GetAssetTypeCount : Nat
  GetAssetType_ID : Nat → String
  GetAssetType_Name : String → String
  Decode : String → String
  CreateAssetContract : String → String → String
  getContract : String → String → String → String
  issue_asset_type_me : String → String → String → String

/-- A Python file/StringIO object: `data` is the unread remainder, `closed`
the closed flag, `reads` counts successful `read()` calls. -/
structure PyStream where
  data : String
  closed : Bool
  reads : Nat
  deriving Repr, DecidableEq

/-- `stream.read()`: raises `ValueError` on a closed stream, otherwise returns
the full remaining contents and leaves the stream exhausted. -/
def readStream (s : PyStream) : Except Err (String × PyStream) :=
  if s.closed then .error (.ValueError "I/O operation on closed file")
  else .ok (s.data, { s with data := "", reads := s.reads + 1 })

/-- `stream.close()` (what `contextlib.closing` runs on block exit). -/
def closeStream (s : PyStream) : PyStream :=
  { s with closed := true }

/-- `decode(stream)`: `with closing(stream): decoded =
opentxs.OTAPI_Wrap_Decode(stream.read(), True)`.  The stream is closed on both
the success and the failure exit of the `with` block. -/
def decode (api : OpentxsAPI) (stream : PyStream) : Except Err String × PyStream :=
  match readStream stream with
  | .error e => (.error e, closeStream stream)
  | .ok (content, s) => (.ok (api.Decode content), closeStream s)

/-- `create_pseudonym(keybits=1024, nym_id_source="", alt_location="")`. -/
def create_pseudonym (api : OpentxsAPI) (keybits : Nat := 1024)
    (nym_id_source : String := "") (alt_location : String := "") :
    Except Err String :=
  let retval := api.create_nym keybits nym_id_source alt_location
  if retval = "" then .error (.ReturnValueError retval) else .ok retval

/-- `add_server(nym_id, contract)`: the returned contract id is checked with
`assert(len(contract_id) > 0)`. -/
def add_server (api : OpentxsAPI) (nym_id contract : String) : Except Err String :=
  let contract_id := api.CreateServerContract nym_id contract
  if contract_id.length > 0 then .ok contract_id else .error .AssertionError

/-- `get_nym_name(nym_id)`: raises `ReturnValueError(retval)` when the
capability returns the empty string. -/
def get_nym_name (api : OpentxsAPI) (nym_id : String) : Except Err String :=
  let retval := api.GetNym_Name nym_id
  if retval = "" then .error (.ReturnValueError retval) else .ok retval

/-- The loop body of `get_nym_ids` over a list of indices: raises
`ReturnValueError` at the first empty id, otherwise conses up the ids in
order. -/
def nymIdsFrom (api : OpentxsAPI) : List Nat → Except Err (List String)
  | [] => .ok []
  | i :: rest =>
    let retval := api.GetNym_ID i
    if retval = "" then .error (.ReturnValueError retval)
    else (nymIdsFrom api rest).map (fun l => retval :: l)

/-- `get_nym_ids()`: iterate `range(GetNymCount)`. -/
def get_nym_ids (api : OpentxsAPI) : Except Err (List String) :=
  nymIdsFrom api (List.range api.GetNymCount)

/-- The loop body of `get_account_ids`: every id is appended, empty or not,
and nothing is raised. -/
def accountIdsFrom (api : OpentxsAPI) : List Nat → List String
  | [] => []
  | i :: rest => api.GetAccountWallet_ID i :: accountIdsFrom api rest

/-- `get_account_ids()`: iterate `range(GetAccountCount)`. -/
def get_account_ids (api : OpentxsAPI) : List String :=
  accountIdsFrom api (List.range api.GetAccountCount)

/-- The loop body of `get_servers`: pairs `(id, name)` with the name fetched
per id. -/
def serversFrom (api : OpentxsAPI) : List Nat → List (String × String)
  | [] => []
  | i :: rest =>
    (api.GetServer_ID i, api.GetServer_Name (api.GetServer_ID i)) :: serversFrom api rest

/-- `get_servers()`: iterate `range(GetServerCount)`. -/
def get_servers (api : OpentxsAPI) : List (String × String) :=
  serversFrom api (List.range api.GetServerCount)

/-- The loop body of `get_assets`. -/
def assetsFrom (api : OpentxsAPI) : List Nat → List (String × String)
  | [] => []
  | i :: rest =>
    (api.GetAssetType_ID i, api.GetAssetType_Name (api.GetAssetType_ID i)) :: assetsFrom api rest

/-- `get_assets()`: iterate `range(GetAssetTypeCount)`. -/
def get_assets (api : OpentxsAPI) : List (String × String) :=
  assetsFrom api (List.range api.GetAssetTypeCount)

/-- `first_server_id()`: `get_servers()[0][0]`; indexing an empty list raises
`IndexError`. -/
def first_server_id (api : OpentxsAPI) : Except Err String :=
  match get_servers api with
  | [] => .error .IndexError
  | p :: _ => .ok p.1

/-- `re.sub(pat, rep, s)` for a literal (regex-free) pattern, on character
lists: every occurrence of `pat` is replaced by `rep`, scanning left to
right. -/
def replaceAll (pat rep : List Char) : List Char → List Char
  | [] => []
  | c :: rest =>
    if pat.isPrefixOf (c :: rest) then rep ++ replaceAll pat rep (rest.drop (pat.length - 1))
    else c :: replaceAll pat rep rest
termination_by l => l.length
decreasing_by
  · simp only [List.length_drop, List.length_cons]
    omega
  · simp

/-- Whether `pat` occurs as a contiguous sublist. -/
def occursIn (pat : List Char) : List Char → Bool
  | [] => pat.isEmpty
  | c :: rest => pat.isPrefixOf (c :: rest) || occursIn pat rest

/-- `re.sub` with a literal pattern, lifted to `String`. -/
def pyReSub (pat rep s : String) : String := ⟨replaceAll pat.data rep.data s.data⟩

/-- Everything after the first occurrence of `pat`, or `none` when `pat` does
not occur. -/
def dropAfterFirst (pat : List Char) : List Char → Option (List Char)
  | [] => none
  | c :: rest =>
    if pat.isPrefixOf (c :: rest) then some ((c :: rest).drop pat.length)
    else dropAfterFirst pat rest

/-- The characters before the first occurrence of `q`, or `none` when `q`
does not occur. -/
def takeBefore (q : Char) : List Char → Option (List Char)
  | [] => none
  | c :: rest => if c = q then some [] else (takeBefore q rest).map (c :: ·)

/-- Python `str.strip()` on character lists: drop whitespace at both ends. -/
def stripChars (l : List Char) : List Char :=
  ((l.dropWhile Char.isWhitespace).reverse.dropWhile Char.isWhitespace).reverse

/-- Modelled from bs4: `BeautifulSoup(valid_xml).createaccount['accountid']`.
Locates the `createAccount` element and reads its `accountid` attribute;
a missing element or attribute raises (bs4 raises `TypeError`/`KeyError`,
collapsed here into `AttributeError`/`KeyError`). -/
def soup_createaccount_accountid (xml : List Char) : Except Err String :=
  match dropAfterFirst "<createAccount".data xml with
  | none => .error .AttributeError
  | some rest =>
    match dropAfterFirst "accountid=\"".data rest with
    | none => .error .KeyError
    | some rest2 =>
      match takeBefore '"' rest2 with
      | none => .error .KeyError
      | some v => .ok ⟨v⟩

/-- `create_account(server_id, nym_id, asset_id)`: normalise the capability's
fragment with `re.sub("<@createAccount", "<createAccount", ...)`, parse it,
and extract the `accountid` attribute. -/
def create_account (api : OpentxsAPI) (server_id nym_id asset_id : String) :
    Except Err String :=
  let account_xml := api.create_asset_acct server_id nym_id asset_id
  let valid_xml := pyReSub "<@createAccount" "<createAccount" account_xml
  soup_createaccount_accountid valid_xml.data

/-- Modelled from bs4: `BeautifulSoup(walletxml).wallet.cachedkey.string.strip()`.
Locates the `cachedkey` element inside `wallet`, takes its text content and
strips surrounding whitespace; any missing piece raises `AttributeError`. -/
def extractCachedKey (walletxml : String) : Except Err String :=
  match dropAfterFirst "<wallet".data walletxml.data with
  | none => .error .AttributeError
  | some afterWallet =>
    match dropAfterFirst "<cachedkey>".data afterWallet with
    | none => .error .AttributeError
    | some afterKey =>
      match takeBefore '<' afterKey with
      | none => .error .AttributeError
      | some content => .ok ⟨stripChars content⟩

/-- One capability call made by `issue_asset_type`, for tracing call order. -/
inductive CapCall where
  | CreateAssetContract (nym contract : String)
  | getContract (server nym asset : String)
  | issue_asset_type_call (server nym signed : String)
  deriving Repr, DecidableEq

/-- `issue_asset_type(server_id, nym_id, contract_stream)`: read the stream,
sign the asset contract, `assert asset_id` (empty string is falsy), fetch the
signed contract and dispatch issuance.  The third component records the
capability calls actually made, in order. -/
def issue_asset_type (api : OpentxsAPI) (server_id nym_id : String)
    (contract_stream : PyStream) : Except Err String × PyStream × List CapCall :=
  match readStream contract_stream with
  | .error e => (.error e, contract_stream, [])
  | .ok (content, s) =>
    let asset_id := api.CreateAssetContract nym_id content
    if asset_id = "" then
      (.error .AssertionError, s, [.CreateAssetContract nym_id content])
    else
      let signed_contract := api.getContract server_id nym_id asset_id
      (.ok (api.issue_asset_type_me server_id nym_id signed_contract), s,
        [.CreateAssetContract nym_id content,
          .getContract server_id nym_id asset_id,
          .issue_asset_type_call server_id nym_id signed_contract])

/-- Paths relative to `config_dir` (`~/.ot/`), as component lists. -/
abbrev Path := List String

/-- The wallet directory tree: an association list of files (path, contents)
and a list of directories. -/
structure FS where
  files : List (Path × String)
  dirs : List Path
  deriving Repr, DecidableEq

/-- The file entry at `p`, when present. -/
def FS.findFile (fs : FS) (p : Path) : Option (Path × String) :=
  fs.files.find? (fun e => e.1 == p)

/-- Whether a file exists at `p`. -/
def FS.hasFile (fs : FS) (p : Path) : Bool := (fs.findFile p).isSome

/-- Whether a directory exists at `p`. -/
def FS.isDir (fs : FS) (p : Path) : Bool := fs.dirs.contains p

/-- `os.path.exists`. -/
def FS.pathExists (fs : FS) (p : Path) : Bool := fs.isDir p || fs.hasFile p

/-- Read a whole file; `open` raises `FileNotFoundError` when it is absent. -/
def FS.readFile (fs : FS) (p : Path) : Except Err String :=
  match fs.findFile p with
  | some e => .ok e.2
  | none => .error (.FileNotFoundError (String.intercalate "/" p))

/-- `open(p)`: a fresh stream over the file's contents. -/
def FS.openFile (fs : FS) (p : Path) : Except Err PyStream :=
  (fs.readFile p).map (fun c => { data := c, closed := false, reads := 0 })

/-- `os.mkdir`. -/
def FS.mkdir (fs : FS) (p : Path) : FS := { fs with dirs := p :: fs.dirs }

/-- Whether `p` is `root` itself or lies below it. -/
def underPath (root p : Path) : Bool := root.isPrefixOf p

/-- Move a path below `src` to the corresponding path below `dst`. -/
def rebasePath (src dst p : Path) : Path := dst ++ p.drop src.length

/-- `shutil.copytree(src, dst)`: copies the whole subtree; raises when `src`
is not a directory or `dst` already exists. -/
def FS.copytree (fs : FS) (src dst : Path) : Except Err FS :=
  if fs.isDir src = false then .error (.FileNotFoundError (String.intercalate "/" src))
  else if fs.pathExists dst then .error (.FileExistsError (String.intercalate "/" dst))
  else .ok
    { files := fs.files ++
        (fs.files.filter (fun e => underPath src e.1)).map
          (fun e => (rebasePath src dst e.1, e.2)),
      dirs := fs.dirs ++
        (fs.dirs.filter (fun d => underPath src d)).map (rebasePath src dst) }

/-- `shutil.rmtree(p)`: removes the whole subtree; raises when `p` is not a
directory. -/
def FS.rmtree (fs : FS) (p : Path) : Except Err FS :=
  if fs.isDir p = false then .error (.FileNotFoundError (String.intercalate "/" p))
  else .ok
    { files := fs.files.filter (fun e => !underPath p e.1),
      dirs := fs.dirs.filter (fun d => !underPath p d) }

def client_data_path : Path := ["client_data"]

def wallet_xml_path : Path := ["client_data", "wallet.xml"]

def client_contracts_path : Path := ["client_data", "contracts"]

def client_credentials_path : Path := ["client_data", "credentials"]

def server_data_path : Path := ["server_data"]

def server_credentials_path : Path := ["server_data", "credentials"]

/-- The observable outcome of a `setup_server` run: the directory tree, the
lines printed (in order), and the contracts passed to
`OTAPI_Wrap_AddServerContract`. -/
structure SetupResult where
  fs : FS
  prints : List String
  added_server_contracts : List String
  deriving Repr, DecidableEq

/-- `setup_server(contract_stream)`, straight-line translation.  Each match
failure propagates the Python exception; the filesystem component of the
result reflects exactly the mutations performed before the failure point. -/
def setup_server (api : OpentxsAPI) (contract_stream : PyStream) (fs : FS) :
    Except Err String × SetupResult :=
  match create_pseudonym api with
  | .error e => (.error e, ⟨fs, [], []⟩)
  | .ok server_nym =>
    match readStream contract_stream with
    | .error e => (.error e, ⟨fs, [], []⟩)
    | .ok (contract_text, _) =>
      match add_server api server_nym contract_text with
      | .error e => (.error e, ⟨fs, [], []⟩)
      | .ok server_contract =>
        match fs.openFile wallet_xml_path with
        | .error e => (.error e, ⟨fs, [], []⟩)
        | .ok wstream =>
          match (decode api wstream).1 with
          | .error e => (.error e, ⟨fs, [], []⟩)
          | .ok walletxml =>
            match extractCachedKey walletxml with
            | .error e => (.error e, ⟨fs, [], []⟩)
            | .ok cached_key =>
              match fs.openFile (client_contracts_path ++ [server_contract]) with
              | .error e => (.error e, ⟨fs, [], []⟩)
              | .ok cstream =>
                match readStream cstream with
                | .error e => (.error e, ⟨fs, [], []⟩)
                | .ok (signed_contract, _) =>
                  match (decode api ⟨signed_contract, false, 0⟩).1 with
                  | .error e => (.error e, ⟨fs, [], []⟩)
                  | .ok decoded_signed_contract =>
                    let fs1 := if fs.pathExists server_data_path then fs
                               else fs.mkdir server_data_path
                    match fs1.copytree client_credentials_path server_credentials_path with
                    | .error e => (.error e, ⟨fs1, [], []⟩)
                    | .ok fs2 =>
                      match fs2.rmtree client_data_path with
                      | .error e => (.error e, ⟨fs2, [], []⟩)
                      | .ok fs3 =>
                        (.ok decoded_signed_contract,
                          ⟨fs3,
                            [server_contract, server_nym, cached_key ++ "\n~",
                              decoded_signed_contract ++ "\n~"],
                            [decoded_signed_contract]⟩)

/-- A concrete capability state used by the witnesses: every call succeeds. -/
def apiW : OpentxsAPI where
  create_nym := fun _ _ _ => "NYM1"
  create_asset_acct := fun _ _ _ => "<@createAccount accountid=\"ACC1\">"
  CreateServerContract := fun _ _ => "SC1"
  GetNymCount := 2
  GetNym_ID := fun i => if i = 0 then "N0" else "N1"
  GetNym_Name := fun _ => "alice"
  GetAccountCount := 1
  GetAccountWallet_ID := fun _ => ""
  GetServerCount := 1
  GetServer_ID := fun _ => "S0"
  GetServer_Name := fun _ => "srv"
  GetAssetTypeCount := 1
  GetAssetType_ID := fun _ => "A0"
  GetAssetType_Name := fun _ => "gold"
  Decode := fun s => s
  CreateAssetContract := fun _ _ => "ASSET1"
  getContract := fun _ _ _ => "SIGNED1"
  issue_asset_type_me := fun _ _ _ => "ISSUED"

/-- `apiW` with the `createAccount` response already marker-free. -/
def apiV : OpentxsAPI :=
  { apiW with create_asset_acct := fun _ _ _ => "<createAccount accountid=\"ACC1\">" }

/-- A concrete capability state whose calls return the empty-string sentinel
while reporting one entry in every collection. -/
def apiE : OpentxsAPI where
  create_nym := fun _ _ _ => ""
  create_asset_acct := fun _ _ _ => ""
  CreateServerContract := fun _ _ => ""
  GetNymCount := 1
  GetNym_ID := fun _ => ""
  GetNym_Name := fun _ => ""
  GetAccountCount := 1
  GetAccountWallet_ID := fun _ => ""
  GetServerCount := 1
  GetServer_ID := fun _ => ""
  GetServer_Name := fun _ => "noname"
  GetAssetTypeCount := 1
  GetAssetType_ID := fun _ => ""
  GetAssetType_Name := fun _ => ""
  Decode := fun s => s
  CreateAssetContract := fun _ _ => ""
  getContract := fun _ _ _ => ""
  issue_asset_type_me := fun _ _ _ => ""

/-- A concrete capability state reporting zero entries everywhere. -/
def apiZ : OpentxsAPI :=
  { apiE with GetNymCount := 0, GetAccountCount := 0, GetServerCount := 0,
              GetAssetTypeCount := 0 }

/-- A concrete client wallet tree used by the `setup_server` witnesses. -/
def fsW : FS where
  files := [(["client_data", "wallet.xml"], "<wallet><cachedkey> KEY </cachedkey></wallet>"),
            (["client_data", "contracts", "SC1"], "RAWSIGNED"),
            (["client_data", "credentials", "cred1"], "C1DATA")]
  dirs := [["client_data"], ["client_data", "contracts"], ["client_data", "credentials"]]

/-- `fsW` with the wallet metadata file missing. -/
def fsNoWallet : FS where
  files := [(["client_data", "contracts", "SC1"], "RAWSIGNED"),
            (["client_data", "credentials", "cred1"], "C1DATA")]
  dirs := [["client_data"], ["client_data", "contracts"], ["client_data", "credentials"]]

end Pyopentxs

namespace Pyopentxs

/-! ## Helper lemmas -/

theorem length_pos_of_ne_empty (s : String) (h : s ≠ "") : 0 < s.length := by
  obtain ⟨l⟩ := s
  cases l with
  | nil => exact absurd rfl h
  | cons c t => simp [String.length]

theorem nymIdsFrom_ok (api : OpentxsAPI) (l : List Nat)
    (h : ∀ i ∈ l, api.GetNym_ID i ≠ "") :
    nymIdsFrom api l = .ok (l.map api.GetNym_ID) := by
  induction l with
  | nil => simp [nymIdsFrom]
  | cons i rest ih =>
    have h1 : api.GetNym_ID i ≠ "" := h i (by simp)
    simp [nymIdsFrom, h1, ih (fun j hj => h j (by simp [hj])), Except.map]

theorem nymIdsFrom_err (api : OpentxsAPI) (l : List Nat)
    (h : ∃ i ∈ l, api.GetNym_ID i = "") :
    nymIdsFrom api l = .error (.ReturnValueError "") := by
  induction l with
  | nil => simp at h
  | cons i rest ih =>
    by_cases hi : api.GetNym_ID i = ""
    · simp [nymIdsFrom, hi]
    · obtain ⟨j, hj, he⟩ := h
      rcases List.mem_cons.mp hj with rfl | hj'
      · exact absurd he hi
      · simp [nymIdsFrom, hi, ih ⟨j, hj', he⟩, Except.map]

theorem accountIdsFrom_eq_map (api : OpentxsAPI) (l : List Nat) :
    accountIdsFrom api l = l.map api.GetAccountWallet_ID := by
  induction l with
  | nil => rfl
  | cons i rest ih => simp [accountIdsFrom, ih]

theorem serversFrom_eq_map (api : OpentxsAPI) (l : List Nat) :
    serversFrom api l =
      l.map (fun i => (api.GetServer_ID i, api.GetServer_Name (api.GetServer_ID i))) := by
  induction l with
  | nil => rfl
  | cons i rest ih => simp [serversFrom, ih]

theorem assetsFrom_eq_map (api : OpentxsAPI) (l : List Nat) :
    assetsFrom api l =
      l.map (fun i => (api.GetAssetType_ID i, api.GetAssetType_Name (api.GetAssetType_ID i))) := by
  induction l with
  | nil => rfl
  | cons i rest ih => simp [assetsFrom, ih]

/-! ## Claims about the wallet query facade and the error-translation layer -/

/-- C7: `get_nym_name` raises `ReturnValueError` carrying the raw returned
value exactly when the capability returns the empty string, and otherwise
returns the capability's name string unchanged; there is no retry or local
recovery. -/
theorem get_nym_name_sentinel (api : OpentxsAPI) (nym_id : String) :
    (api.GetNym_Name nym_id = "" →
      get_nym_name api nym_id = .error (.ReturnValueError (api.GetNym_Name nym_id))) ∧
    (api.GetNym_Name nym_id ≠ "" →
      get_nym_name api nym_id = .ok (api.GetNym_Name nym_id)) := by
  constructor <;> intro h <;> simp [get_nym_name, h]

theorem get_nym_name_sentinel_witness :
    get_nym_name apiW "n" = .ok "alice" ∧
    get_nym_name apiE "n" = .error (.ReturnValueError "") :=
  ⟨(get_nym_name_sentinel apiW "n").2 (by decide),
   (get_nym_name_sentinel apiE "n").1 (by decide)⟩

/-- C8: `add_server` checks the returned contract id with
`assert(len(contract_id) > 0)`: a zero-length result is a fatal assertion
failure (a different failure from the recoverable `ReturnValueError`
sentinel), and any non-empty id is returned unchanged. -/
theorem add_server_assert (api : OpentxsAPI) (nym_id contract : String) :
    (api.CreateServerContract nym_id contract = "" →
      add_server api nym_id contract = .error .AssertionError) ∧
    (api.CreateServerContract nym_id contract ≠ "" →
      add_server api nym_id contract = .ok (api.CreateServerContract nym_id contract)) ∧
    (∀ v, Err.AssertionError ≠ Err.ReturnValueError v) := by
  refine ⟨fun h => ?_, fun h => ?_, fun v h => by cases h⟩
  · simp [add_server, h]
  · have hl : 0 < (api.CreateServerContract nym_id contract).length :=
      length_pos_of_ne_empty _ h
    simp [add_server, hl]

theorem add_server_assert_witness :
    add_server apiW "n" "c" = .ok "SC1" ∧
    add_server apiE "n" "c" = .error .AssertionError :=
  ⟨((add_server_assert apiW "n" "c").2).1 (by decide),
   (add_server_assert apiE "n" "c").1 (by decide)⟩

/-- C9: `first_server_id` returns the id component of the first element of
the server list when the capability reports at least one server, and fails
with `IndexError` (not a sentinel `ReturnValueError`) when it reports zero
servers. -/
theorem first_server_id_spec (api : OpentxsAPI) :
    (0 < api.GetServerCount → first_server_id api = .ok (api.GetServer_ID 0)) ∧
    (api.GetServerCount = 0 → first_server_id api = .error .IndexError) := by
  constructor
  · intro h
    cases hn : api.GetServerCount with
    | zero => omega
    | succ n =>
      simp [first_server_id, get_servers, hn, List.range_succ_eq_map, serversFrom]
  · intro h
    simp [first_server_id, get_servers, h, serversFrom]

theorem first_server_id_spec_witness :
    first_server_id apiW = .ok "S0" ∧ first_server_id apiZ = .error .IndexError :=
  ⟨(first_server_id_spec apiW).1 (by decide), (first_server_id_spec apiZ).2 (by decide)⟩

/-- C4: `get_nym_ids` iterates the capability-reported nym count in order and
raises `ReturnValueError` if any individual id comes back empty, otherwise
returning exactly the count ids in enumeration order; `get_account_ids`
iterates the account count and never raises, including every entry (empty
ones too) in enumeration order. -/
theorem get_nym_ids_vs_account_ids (api : OpentxsAPI) :
    ((∀ i < api.GetNymCount, api.GetNym_ID i ≠ "") →
      get_nym_ids api = .ok ((List.range api.GetNymCount).map api.GetNym_ID)) ∧
    ((∃ i < api.GetNymCount, api.GetNym_ID i = "") →
      get_nym_ids api = .error (.ReturnValueError "")) ∧
    get_account_ids api = (List.range api.GetAccountCount).map api.GetAccountWallet_ID ∧
    (get_account_ids api).length = api.GetAccountCount := by
  refine ⟨fun h => ?_, fun h => ?_, ?_, ?_⟩
  · exact nymIdsFrom_ok api _ (fun i hi => h i (List.mem_range.mp hi))
  · obtain ⟨i, hi, he⟩ := h
    exact nymIdsFrom_err api _ ⟨i, List.mem_range.mpr hi, he⟩
  · exact accountIdsFrom_eq_map api _
  · rw [get_account_ids, accountIdsFrom_eq_map]
    simp

theorem get_nym_ids_vs_account_ids_witness :
    get_nym_ids apiW = .ok ["N0", "N1"] ∧
    get_nym_ids apiE = .error (.ReturnValueError "") :=
  ⟨(get_nym_ids_vs_account_ids apiW).1 (by decide),
   (get_nym_ids_vs_account_ids apiE).2.1 ⟨0, by decide, by decide⟩⟩

/-- C5 counterexample: the claim that every element of `get_servers` has a
non-empty id fails on the capability state `apiE`, which reports one server
whose id comes back as the empty string; `get_servers` performs no check and
returns the empty id. -/
theorem get_servers_empty_id_counterexample :
    get_servers apiE = [("", "noname")] ∧ ¬ (∀ p ∈ get_servers apiE, p.1 ≠ "") := by
  constructor
  · rfl
  · intro h
    exact h ("", "noname") (by decide) rfl

/-- C5 (amended): `get_servers` and `get_assets` return exactly one `(id,
name)` pair per capability-reported index, in enumeration order, with the
name fetched per id, so their lengths equal the reported counts; the ids are
passed through unchecked and may be empty. -/
theorem get_servers_assets_spec (api : OpentxsAPI) :
    get_servers api = (List.range api.GetServerCount).map
      (fun i => (api.GetServer_ID i, api.GetServer_Name (api.GetServer_ID i))) ∧
    (get_servers api).length = api.GetServerCount ∧
    get_assets api = (List.range api.GetAssetTypeCount).map
      (fun i => (api.GetAssetType_ID i, api.GetAssetType_Name (api.GetAssetType_ID i))) ∧
    (get_assets api).length = api.GetAssetTypeCount := by
  refine ⟨serversFrom_eq_map api _, ?_, assetsFrom_eq_map api _, ?_⟩
  · rw [get_servers, serversFrom_eq_map]
    simp
  · rw [get_assets, assetsFrom_eq_map]
    simp

/-- C10: `issue_asset_type` reads the stream, then `assert asset_id` guards
the capability's asset-contract id: an empty (falsy) id aborts with an
assertion failure before `getContract` or issuance is ever called, and a
non-empty id proceeds to both calls in order. -/
theorem issue_asset_type_assert (api : OpentxsAPI) (server_id nym_id : String)
    (s : PyStream) (hopen : s.closed = false) :
    (api.CreateAssetContract nym_id s.data = "" →
      (issue_asset_type api server_id nym_id s).1 = .error .AssertionError ∧
      (issue_asset_type api server_id nym_id s).2.2 =
        [.CreateAssetContract nym_id s.data] ∧
      (∀ srv n a, CapCall.getContract srv n a ∉ (issue_asset_type api server_id nym_id s).2.2) ∧
      (∀ srv n c, CapCall.issue_asset_type_call srv n c ∉
        (issue_asset_type api server_id nym_id s).2.2)) ∧
    (api.CreateAssetContract nym_id s.data ≠ "" →
      (issue_asset_type api server_id nym_id s).1 =
        .ok (api.issue_asset_type_me server_id nym_id
          (api.getContract server_id nym_id (api.CreateAssetContract nym_id s.data))) ∧
      (issue_asset_type api server_id nym_id s).2.2 =
        [.CreateAssetContract nym_id s.data,
          .getContract server_id nym_id (api.CreateAssetContract nym_id s.data),
          .issue_asset_type_call server_id nym_id
            (api.getContract server_id nym_id (api.CreateAssetContract nym_id s.data))]) := by
  constructor <;> intro h <;> simp [issue_asset_type, readStream, hopen, h]

theorem issue_asset_type_assert_witness :
    ((issue_asset_type apiE "s" "n" ⟨"contract", false, 0⟩).1 = .error .AssertionError ∧
      (issue_asset_type apiE "s" "n" ⟨"contract", false, 0⟩).2.2 =
        [.CreateAssetContract "n" "contract"] ∧
      (∀ srv n a, CapCall.getContract srv n a ∉
        (issue_asset_type apiE "s" "n" ⟨"contract", false, 0⟩).2.2) ∧
      (∀ srv n c, CapCall.issue_asset_type_call srv n c ∉
        (issue_asset_type apiE "s" "n" ⟨"contract", false, 0⟩).2.2)) ∧
    (issue_asset_type apiW "s" "n" ⟨"contract", false, 0⟩).1 = .ok "ISSUED" :=
  ⟨(issue_asset_type_assert apiE "s" "n" ⟨"contract", false, 0⟩ rfl).1 rfl,
   ((issue_asset_type_assert apiW "s" "n" ⟨"contract", false, 0⟩ rfl).2 (by decide)).1⟩

/-- C3: the decode helper closes its stream on every exit path; on an open
stream it reads the full contents exactly once (one successful `read`) and
returns the capability-decoded payload, and a second `decode` of the
now-closed stream fails with `ValueError` without reading again. -/
theorem decode_stream_spec (api : OpentxsAPI) (s : PyStream) :
    (decode api s).2.closed = true ∧
    (s.closed = false →
      (decode api s).1 = .ok (api.Decode s.data) ∧
      (decode api s).2.reads = s.reads + 1 ∧
      (decode api (decode api s).2).1 = .error (.ValueError "I/O operation on closed file") ∧
      (decode api (decode api s).2).2.reads = s.reads + 1) := by
  obtain ⟨d, c, r⟩ := s
  cases c <;> simp [decode, readStream, closeStream]

theorem replaceAll_cons_no_match (pat rep : List Char) (c : Char) (l : List Char)
    (h : pat.isPrefixOf (c :: l) = false) :
    replaceAll pat rep (c :: l) = c :: replaceAll pat rep l := by
  rw [replaceAll]
  simp [h]

theorem replaceAll_left (pat rep l : List Char) (h : pat ≠ []) :
    replaceAll pat rep (pat ++ l) = rep ++ replaceAll pat rep l := by
  cases pat with
  | nil => exact absurd rfl h
  | cons p ps =>
    have hpre : (p :: ps).isPrefixOf (p :: (ps ++ l)) = true := by
      rw [List.isPrefixOf_iff_prefix]
      simp
    simp only [List.cons_append]
    rw [replaceAll]
    simp [hpre, List.drop_left]

theorem replaceAll_no_occurrence (pat rep l : List Char) (h : occursIn pat l = false) :
    replaceAll pat rep l = l := by
  induction l with
  | nil => rw [replaceAll]
  | cons c rest ih =>
    rw [occursIn] at h
    simp only [Bool.or_eq_false_iff] at h
    rw [replaceAll]
    simp [h.1, ih h.2]

theorem dropAfterFirst_cons_no_match (pat : List Char) (c : Char) (l : List Char)
    (h : pat.isPrefixOf (c :: l) = false) :
    dropAfterFirst pat (c :: l) = dropAfterFirst pat l := by
  simp [dropAfterFirst, h]

theorem dropAfterFirst_left (pat l : List Char) (h : pat ≠ []) :
    dropAfterFirst pat (pat ++ l) = some l := by
  cases pat with
  | nil => exact absurd rfl h
  | cons p ps =>
    have hpre : (p :: ps).isPrefixOf (p :: (ps ++ l)) = true := by
      rw [List.isPrefixOf_iff_prefix]
      simp
    simp only [List.cons_append]
    rw [dropAfterFirst]
    simp [hpre, List.drop_left]

theorem takeBefore_left (q : Char) (l r : List Char) (h : q ∉ l) :
    takeBefore q (l ++ q :: r) = some l := by
  induction l with
  | nil => simp [takeBefore]
  | cons c rest ih =>
    have hc : ¬ c = q := by
      rintro rfl
      exact h (by simp)
    simp [takeBefore, hc, ih (fun hm => h (by simp [hm]))]

theorem replaceAll_marker_skip (tail : List Char) :
    replaceAll "<@createAccount".data "<createAccount".data ("<createAccount".data ++ tail) =
      "<createAccount".data ++ replaceAll "<@createAccount".data "<createAccount".data tail := by
  show replaceAll _ _ ('<' :: 'c' :: 'r' :: 'e' :: 'a' :: 't' :: 'e' :: 'A' :: 'c' :: 'c' ::
    'o' :: 'u' :: 'n' :: 't' :: tail) = _
  repeat rw [replaceAll_cons_no_match]
  all_goals rfl

/-- C6: `create_account` normalises the capability's fragment with
`re.sub("<@createAccount", "<createAccount", ...)`.  For a response carrying
the stray `@` marker before `createAccount`, exactly that marker is stripped,
so the result is the same as for the marker-free response, and for a
well-formed fragment the `accountid` attribute is extracted. -/
theorem create_account_marker_normalization (api api2 : OpentxsAPI)
    (server_id nym_id asset_id tail : String)
    (h1 : api.create_asset_acct server_id nym_id asset_id = "<@createAccount" ++ tail)
    (h2 : api2.create_asset_acct server_id nym_id asset_id = "<createAccount" ++ tail)
    (hfree : occursIn "<@createAccount".data tail.data = false) :
    create_account api server_id nym_id asset_id =
      create_account api2 server_id nym_id asset_id ∧
    (∀ v rest, tail = " accountid=\"" ++ v ++ "\"" ++ rest → ('"' : Char) ∉ v.data →
      create_account api server_id nym_id asset_id = .ok v) := by
  have key1 : create_account api server_id nym_id asset_id =
      soup_createaccount_accountid ("<createAccount".data ++ tail.data) := by
    simp only [create_account, pyReSub, h1, String.data_append]
    rw [replaceAll_left _ _ _ (by decide), replaceAll_no_occurrence _ _ _ hfree]
  have key2 : create_account api2 server_id nym_id asset_id =
      soup_createaccount_accountid ("<createAccount".data ++ tail.data) := by
    simp only [create_account, pyReSub, h2, String.data_append]
    rw [replaceAll_marker_skip, replaceAll_no_occurrence _ _ _ hfree]
  refine ⟨key1.trans key2.symm, ?_⟩
  intro v rest hteq hqv
  rw [key1, hteq]
  simp only [String.data_append, List.append_assoc]
  rw [soup_createaccount_accountid]
  rw [dropAfterFirst_left _ _ (by decide)]
  rw [show (" accountid=\"" : String).data ++ (v.data ++ (("\"" : String).data ++ rest.data)) =
    ' ' :: (("accountid=\"" : String).data ++ (v.data ++ ('"' :: rest.data))) from rfl]
  simp only []
  rw [dropAfterFirst_cons_no_match]
  · rw [dropAfterFirst_left _ _ (by decide)]
    simp only []
    rw [takeBefore_left _ _ _ hqv]
  · rfl

theorem create_account_marker_normalization_witness :
    create_account apiW "s" "n" "a" = create_account apiV "s" "n" "a" ∧
    create_account apiW "s" "n" "a" = .ok "ACC1" := by
  have main := create_account_marker_normalization apiW apiV "s" "n" "a"
    " accountid=\"ACC1\">" rfl rfl (by decide)
  exact ⟨main.1, main.2 "ACC1" ">" rfl (by decide)⟩

theorem decode_stream_spec_witness :
    (decode apiW ⟨"payload", false, 0⟩).2.closed = true ∧
    ((false : Bool) = false →
      (decode apiW ⟨"payload", false, 0⟩).1 = .ok (apiW.Decode "payload") ∧
      (decode apiW ⟨"payload", false, 0⟩).2.reads = 0 + 1 ∧
      (decode apiW (decode apiW ⟨"payload", false, 0⟩).2).1 =
        .error (.ValueError "I/O operation on closed file") ∧
      (decode apiW (decode apiW ⟨"payload", false, 0⟩).2).2.reads = 0 + 1) :=
  decode_stream_spec apiW ⟨"payload", false, 0⟩

/-! ## Inversion and filesystem lemmas for the provisioning workflow -/

theorem create_pseudonym_ok {api : OpentxsAPI} {k : Nat} {src alt v : String}
    (h : create_pseudonym api k src alt = .ok v) : api.create_nym k src alt = v := by
  simp only [create_pseudonym] at h
  split at h
  · cases h
  · simpa using h

theorem add_server_ok {api : OpentxsAPI} {n c v : String}
    (h : add_server api n c = .ok v) : api.CreateServerContract n c = v := by
  simp only [add_server] at h
  split at h
  · simpa using h
  · cases h

theorem readStream_ok {s : PyStream} {content : String} {s2 : PyStream}
    (h : readStream s = .ok (content, s2)) :
    content = s.data ∧ s.closed = false := by
  simp only [readStream] at h
  split at h
  · cases h
  · next hc =>
    simp only [Except.ok.injEq, Prod.mk.injEq] at h
    exact ⟨h.1.symm, by simpa using hc⟩

theorem openFile_ok {fs : FS} {p : Path} {st : PyStream}
    (h : fs.openFile p = .ok st) :
    ∃ c, fs.readFile p = .ok c ∧ st = ⟨c, false, 0⟩ := by
  simp only [FS.openFile] at h
  cases hr : fs.readFile p with
  | error e => rw [hr] at h; cases h
  | ok c =>
    rw [hr] at h
    simp only [Except.map] at h
    exact ⟨c, rfl, (Except.ok.inj h).symm⟩

theorem openFile_of_hasFile_false {fs : FS} {p : Path}
    (h : fs.hasFile p = false) :
    fs.openFile p = .error (.FileNotFoundError (String.intercalate "/" p)) := by
  simp only [FS.hasFile] at h
  simp only [FS.openFile, FS.readFile]
  cases hf : fs.findFile p with
  | none => simp [Except.map]
  | some e => rw [hf] at h; cases h

theorem decode_fresh (api : OpentxsAPI) (d : String) (r : Nat) :
    decode api ⟨d, false, r⟩ = (.ok (api.Decode d), ⟨"", true, r + 1⟩) := by
  simp [decode, readStream, closeStream]

theorem copytree_ok {fs : FS} {src dst : Path} {fs2 : FS}
    (h : fs.copytree src dst = .ok fs2) :
    fs.isDir src = true ∧
    fs2.files = fs.files ++ (fs.files.filter (fun e => underPath src e.1)).map
      (fun e => (rebasePath src dst e.1, e.2)) ∧
    fs2.dirs = fs.dirs ++ (fs.dirs.filter (fun d => underPath src d)).map
      (rebasePath src dst) := by
  simp only [FS.copytree] at h
  split at h
  · cases h
  · next h1 =>
    split at h
    · cases h
    · have h2 := Except.ok.inj h
      refine ⟨by simpa using h1, ?_, ?_⟩ <;> rw [← h2]

theorem rmtree_ok {fs : FS} {p : Path} {fs2 : FS}
    (h : fs.rmtree p = .ok fs2) :
    fs2.files = fs.files.filter (fun e => !underPath p e.1) ∧
    fs2.dirs = fs.dirs.filter (fun d => !underPath p d) := by
  simp only [FS.rmtree] at h
  split at h
  · cases h
  · have h2 := Except.ok.inj h
    constructor <;> rw [← h2]

theorem contains_of_mem (l : List Path) (p : Path) (h : p ∈ l) :
    l.contains p = true := by
  show l.elem p = true
  exact List.elem_iff.mpr h

theorem contains_filter_eq_false (l : List Path) (pred : Path → Bool) (p : Path)
    (hp : pred p = false) : (l.filter pred).contains p = false := by
  cases hc : (l.filter pred).contains p with
  | false => rfl
  | true =>
    exfalso
    have hm : p ∈ l.filter pred := List.elem_iff.mp hc
    have := (List.mem_filter.mp hm).2
    rw [hp] at this
    cases this

theorem find?_filter_path_none (files : List (Path × String))
    (pred : Path × String → Bool) (p : Path)
    (hp : ∀ c, pred (p, c) = false) :
    (files.filter pred).find? (fun e => e.1 == p) = none := by
  cases hf : (files.filter pred).find? (fun e => e.1 == p) with
  | none => rfl
  | some e =>
    exfalso
    obtain ⟨e1, e2⟩ := e
    have h1 : (e1 == p) = true := by simpa using List.find?_some hf
    have h4 : e1 = p := by simpa using h1
    have h2 := List.mem_of_find?_eq_some hf
    have h3 := (List.mem_filter.mp h2).2
    subst h4
    rw [hp e2] at h3
    cases h3

theorem underPath_append (root rest : Path) : underPath root (root ++ rest) = true := by
  unfold underPath
  rw [List.isPrefixOf_iff_prefix]
  exact List.prefix_append _ _

theorem underPath_refl (p : Path) : underPath p p = true := by
  have := underPath_append p []
  simpa using this

theorem not_under_client_server (rest : Path) :
    underPath client_data_path (server_credentials_path ++ rest) = false := rfl

theorem rebasePath_append (src dst rest : Path) :
    rebasePath src dst (src ++ rest) = dst ++ rest := by
  unfold rebasePath
  rw [List.drop_left]

theorem rebasePath_self (src dst : Path) : rebasePath src dst src = dst := by
  have := rebasePath_append src dst []
  simpa using this

theorem mem_of_contains (l : List Path) (p : Path) (h : l.contains p = true) :
    p ∈ l := by
  have he : l.elem p = true := h
  exact List.elem_iff.mp he

/-- C1: a successful `setup_server` run prints exactly the four artifacts in
order (server contract id, server nym id, cached key, decoded signed
contract); by return time the whole `client_data` tree is gone while
`server_data/credentials` exists and holds the former
`client_data/credentials` subtree; and the returned value is the decoded
signed contract text, which is also what is handed to `AddServerContract`. -/
theorem setup_server_success (api : OpentxsAPI) (contract_stream : PyStream)
    (fs : FS) (r : String) (out : SetupResult)
    (h : setup_server api contract_stream fs = (.ok r, out)) :
    (∃ walletxml cached_key signed_contract,
      fs.readFile wallet_xml_path = .ok walletxml ∧
      extractCachedKey (api.Decode walletxml) = .ok cached_key ∧
      fs.readFile (client_contracts_path ++
        [api.CreateServerContract (api.create_nym 1024 "" "") contract_stream.data]) =
        .ok signed_contract ∧
      r = api.Decode signed_contract ∧
      out.prints = [api.CreateServerContract (api.create_nym 1024 "" "") contract_stream.data,
        api.create_nym 1024 "" "", cached_key ++ "\n~", r ++ "\n~"]) ∧
    (∀ p, underPath client_data_path p = true → out.fs.pathExists p = false) ∧
    out.fs.isDir server_credentials_path = true ∧
    (∀ rest c, (client_credentials_path ++ rest, c) ∈ fs.files →
      (server_credentials_path ++ rest, c) ∈ out.fs.files) ∧
    out.added_server_contracts = [r] := by
  simp only [setup_server] at h
  rcases h1 : create_pseudonym api with e | server_nym
  · rw [h1] at h
    simp at h
  rw [h1] at h
  simp only [] at h
  rcases h2 : readStream contract_stream with e | pr
  · rw [h2] at h
    simp at h
  obtain ⟨contract_text, cstream0⟩ := pr
  rw [h2] at h
  simp only [] at h
  rcases h3 : add_server api server_nym contract_text with e | server_contract
  · rw [h3] at h
    simp at h
  rw [h3] at h
  simp only [] at h
  rcases h4 : fs.openFile wallet_xml_path with e | wstream
  · rw [h4] at h
    simp at h
  rw [h4] at h
  simp only [] at h
  rcases h5 : (decode api wstream).1 with e | walletxml
  · rw [h5] at h
    simp at h
  rw [h5] at h
  simp only [] at h
  rcases h6 : extractCachedKey walletxml with e | cached_key
  · rw [h6] at h
    simp at h
  rw [h6] at h
  simp only [] at h
  rcases h7 : fs.openFile (client_contracts_path ++ [server_contract]) with e | cstream
  · rw [h7] at h
    simp at h
  rw [h7] at h
  simp only [] at h
  rcases h8 : readStream cstream with e | pr2
  · rw [h8] at h
    simp at h
  obtain ⟨signed_contract, cstream2⟩ := pr2
  rw [h8] at h
  simp only [] at h
  rcases h9 : (decode api ⟨signed_contract, false, 0⟩).1 with e | decoded
  · rw [h9] at h
    simp at h
  rw [h9] at h
  simp only [] at h
  generalize hfs1 : (if fs.pathExists server_data_path then fs
    else fs.mkdir server_data_path) = fs1 at h
  have hfiles1 : fs1.files = fs.files := by
    rw [← hfs1]
    split <;> rfl
  rcases h10 : fs1.copytree client_credentials_path server_credentials_path with e | fs2
  · rw [h10] at h
    simp at h
  rw [h10] at h
  simp only [] at h
  rcases h11 : fs2.rmtree client_data_path with e | fs3
  · rw [h11] at h
    simp at h
  rw [h11] at h
  simp only [] at h
  simp only [Prod.mk.injEq, Except.ok.injEq] at h
  obtain ⟨hr, hout⟩ := h
  subst hr
  subst hout
  obtain ⟨hct, hcl⟩ := readStream_ok h2
  have hnym := create_pseudonym_ok h1
  have hsc := add_server_ok h3
  obtain ⟨wc, hwrf, hwst⟩ := openFile_ok h4
  rw [hwst, decode_fresh] at h5
  have hwx : api.Decode wc = walletxml := by simpa using h5
  obtain ⟨scc, hsrf, hsst⟩ := openFile_ok h7
  obtain ⟨hsigned, hscl⟩ := readStream_ok h8
  rw [hsst] at hsigned
  simp only [] at hsigned
  rw [decode_fresh] at h9
  have hdec : api.Decode signed_contract = decoded := by simpa using h9
  obtain ⟨hsrcdir, hfil2, hdir2⟩ := copytree_ok h10
  obtain ⟨hfil3, hdir3⟩ := rmtree_ok h11
  refine ⟨⟨wc, cached_key, scc, hwrf, ?_, ?_, ?_, ?_⟩, ?_, ?_, ?_, rfl⟩
  · rw [hwx]
    exact h6
  · rw [hnym, ← hct, hsc]
    exact hsrf
  · rw [← hdec, hsigned]
  · rw [hnym, ← hct, hsc]
  · intro p hp
    simp only [FS.pathExists, FS.isDir, FS.hasFile, FS.findFile]
    rw [hdir3, hfil3]
    rw [contains_filter_eq_false _ _ _ (by simp [hp])]
    rw [find?_filter_path_none _ _ _ (fun c => by simp [hp])]
    rfl
  · have hsrcmem : client_credentials_path ∈ fs1.dirs := by
      have hc : fs1.dirs.contains client_credentials_path = true := hsrcdir
      exact mem_of_contains _ _ hc
    have hdstmem2 : server_credentials_path ∈ fs2.dirs := by
      rw [hdir2]
      refine List.mem_append.mpr (Or.inr ?_)
      refine List.mem_map.mpr ⟨client_credentials_path, ?_, rebasePath_self _ _⟩
      exact List.mem_filter.mpr ⟨hsrcmem, underPath_refl _⟩
    have hdstmem3 : server_credentials_path ∈ fs3.dirs := by
      rw [hdir3]
      exact List.mem_filter.mpr ⟨hdstmem2, by decide⟩
    simp only [FS.isDir]
    exact contains_of_mem _ _ hdstmem3
  · intro rest c hmem
    have hmem1 : (client_credentials_path ++ rest, c) ∈ fs1.files := by
      rw [hfiles1]
      exact hmem
    have hmem2 : (server_credentials_path ++ rest, c) ∈ fs2.files := by
      rw [hfil2]
      refine List.mem_append.mpr (Or.inr ?_)
      refine List.mem_map.mpr ⟨(client_credentials_path ++ rest, c), ?_, ?_⟩
      · exact List.mem_filter.mpr ⟨hmem1, by simpa using underPath_append client_credentials_path rest⟩
      · simp [rebasePath_append]
    show (server_credentials_path ++ rest, c) ∈ fs3.files
    rw [hfil3]
    refine List.mem_filter.mpr ⟨hmem2, ?_⟩
    simp [not_under_client_server rest]

theorem setup_server_success_witness :
    (∃ walletxml cached_key signed_contract,
      fsW.readFile wallet_xml_path = .ok walletxml ∧
      extractCachedKey (apiW.Decode walletxml) = .ok cached_key ∧
      fsW.readFile (client_contracts_path ++
        [apiW.CreateServerContract (apiW.create_nym 1024 "" "") "CONTRACT"]) =
        .ok signed_contract ∧
      "RAWSIGNED" = apiW.Decode signed_contract ∧
      (["SC1", "NYM1", "KEY" ++ "\n~", "RAWSIGNED" ++ "\n~"] : List String) =
        [apiW.CreateServerContract (apiW.create_nym 1024 "" "") "CONTRACT",
          apiW.create_nym 1024 "" "", cached_key ++ "\n~", "RAWSIGNED" ++ "\n~"]) ∧
    (∀ p, underPath client_data_path p = true →
      FS.pathExists ⟨[(["server_data", "credentials", "cred1"], "C1DATA")],
        [["server_data"], ["server_data", "credentials"]]⟩ p = false) ∧
    FS.isDir ⟨[(["server_data", "credentials", "cred1"], "C1DATA")],
      [["server_data"], ["server_data", "credentials"]]⟩ server_credentials_path = true ∧
    (∀ rest c, (client_credentials_path ++ rest, c) ∈ fsW.files →
      (server_credentials_path ++ rest, c) ∈
        [(["server_data", "credentials", "cred1"], "C1DATA")]) ∧
    (["RAWSIGNED"] : List String) = ["RAWSIGNED"] :=
  setup_server_success apiW ⟨"CONTRACT", false, 0⟩ fsW "RAWSIGNED"
    ⟨⟨[(["server_data", "credentials", "cred1"], "C1DATA")],
      [["server_data"], ["server_data", "credentials"]]⟩,
      ["SC1", "NYM1", "KEY" ++ "\n~", "RAWSIGNED" ++ "\n~"], ["RAWSIGNED"]⟩
    (by rfl)

/-- C2: when `client_data/wallet.xml` is missing, `setup_server` fails (the
exception propagates) before performing any filesystem mutation: the
resulting tree is exactly the input tree (so no `server_data` was created and
`client_data` is untouched) and nothing was printed or registered. -/
theorem setup_server_missing_wallet (api : OpentxsAPI) (contract_stream : PyStream)
    (fs : FS) (res : Except Err String) (out : SetupResult)
    (hmiss : fs.hasFile wallet_xml_path = false)
    (h : setup_server api contract_stream fs = (res, out)) :
    out.fs = fs ∧ out.prints = [] ∧ out.added_server_contracts = [] ∧
    ∃ e, res = .error e := by
  simp only [setup_server] at h
  rcases h1 : create_pseudonym api with e | server_nym
  · rw [h1] at h
    simp only [] at h
    simp only [Prod.mk.injEq] at h
    obtain ⟨hres, hout⟩ := h
    rw [← hout, ← hres]
    exact ⟨rfl, rfl, rfl, e, rfl⟩
  rw [h1] at h
  simp only [] at h
  rcases h2 : readStream contract_stream with e | pr
  · rw [h2] at h
    simp only [] at h
    simp only [Prod.mk.injEq] at h
    obtain ⟨hres, hout⟩ := h
    rw [← hout, ← hres]
    exact ⟨rfl, rfl, rfl, e, rfl⟩
  obtain ⟨contract_text, cstream0⟩ := pr
  rw [h2] at h
  simp only [] at h
  rcases h3 : add_server api server_nym contract_text with e | server_contract
  · rw [h3] at h
    simp only [] at h
    simp only [Prod.mk.injEq] at h
    obtain ⟨hres, hout⟩ := h
    rw [← hout, ← hres]
    exact ⟨rfl, rfl, rfl, e, rfl⟩
  rw [h3] at h
  simp only [] at h
  rw [openFile_of_hasFile_false hmiss] at h
  simp only [] at h
  simp only [Prod.mk.injEq] at h
  obtain ⟨hres, hout⟩ := h
  rw [← hout, ← hres]
  exact ⟨rfl, rfl, rfl, .FileNotFoundError (String.intercalate "/" wallet_xml_path), rfl⟩

theorem setup_server_missing_wallet_witness :
    fsNoWallet = fsNoWallet ∧ ([] : List String) = [] ∧ ([] : List String) = [] ∧
    ∃ e, (.error (.FileNotFoundError "client_data/wallet.xml") : Except Err String) =
      .error e :=
  setup_server_missing_wallet apiW ⟨"CONTRACT", false, 0⟩ fsNoWallet
    (.error (.FileNotFoundError "client_data/wallet.xml")) ⟨fsNoWallet, [], []⟩
    (by rfl) (by rfl)

end Pyopentxs
